import Mathlib

/-!
Shallow embedding of the `robusta_playbook_repository` playbook actions.

Source files embedded here:
* `src/my_playbook_repo/cordon_stateful_nodes.py` — the single-node cordon
  action `cordon_stateful_nodes(event, params)` with parameter `node_name`.
* `src/my_playbook_repo/my_actions.py` — the selector-mode action
  `cordon_stateful_nodes(event, params)` with parameter `label_selector`,
  and `resize_persistent_volume(event, params)`.

The Kubernetes API client is modelled as an explicit environment: a list of
node descriptors plus injected per-call failures.  Each embedded action
returns the final cluster state together with the ordered trace of API calls
it issued and the ordered trace of findings/enrichments it emitted, and an
`Except` value standing for normal return versus a raised exception.
-/

/-- `leadsWith pat l` holds when the character list `pat` occurs at the very
head of `l` (helper for the Python substring test). -/
def leadsWith : List Char → List Char → Bool
  | [], _ => true
  | _ :: _, [] => false
  | p :: ps, c :: cs => p == c && leadsWith ps cs

/-- `occursIn pat l` holds when `pat` occurs contiguously somewhere in `l`:
this is Python's `pat in s` on the underlying character lists. -/
def occursIn (pat : List Char) : List Char → Bool
  | [] => leadsWith pat []
  | c :: cs => leadsWith pat (c :: cs) || occursIn pat cs

/-- Python's substring test `pat in s`, case-sensitive. -/
def strContains (s pat : String) : Bool :=
  occursIn pat.data s.data

/-- One cluster node as the procedure sees it: name, label mapping
(`metadata.labels`, modelled as a key/value list) and the current
`spec.unschedulable` flag. -/
structure NodeDescriptor where
  name : String
  labels : List (String × String)
  unschedulable : Bool
  deriving Repr, DecidableEq

/-- Source (both actions): `any("stateful" in value for value in labels.values())`. -/
def isStateful (labels : List (String × String)) : Bool :=
  labels.any (fun kv => strContains kv.2 "stateful")

/-- A JSON-like value, used for the body handed to `patch_node`. -/
inductive KValue where
  | vBool : Bool → KValue
  | vStr : String → KValue
  | vObj : List (String × KValue) → KValue

/-- The literal patch body both actions send: `{"spec": {"unschedulable": True}}`. -/
def cordonBody : KValue :=
  .vObj [("spec", .vObj [("unschedulable", .vBool true)])]

/-- Modelled from the spec (section 6, `patch_node(name, {unschedulable: bool})`):
the server-side meaning of a patch body on one node.  A body shaped
`{"spec": {"unschedulable": b}}` sets the `unschedulable` flag; the model
gives no other body a meaning, which is harmless because the traces below
prove the actions only ever send `cordonBody`. -/
def applyBody (body : KValue) (nd : NodeDescriptor) : NodeDescriptor :=
  match body with
  | .vObj [("spec", .vObj [("unschedulable", .vBool b)])] => { nd with unschedulable := b }
  | _ => nd

/-- Cluster-facing environment: the nodes the API returns, plus injected API
failures (`none` = the call succeeds, `some e` = the call raises an
`ApiException` carrying message `e`). -/
structure Cluster where
  nodes : List NodeDescriptor
  readErr : String → Option String
  listErr : Option String
  patchErr : String → Option String

/-- Modelled from the spec (section 6, `get_node`): `v1.read_node(name)`
returns the matching node or raises. -/
def readNode (st : Cluster) (n : String) : Except String NodeDescriptor :=
  match st.readErr n with
  | some e => .error e
  | none =>
      match st.nodes.find? (fun nd => nd.name == n) with
      | some nd => .ok nd
      | none => .error ("nodes \x22" ++ n ++ "\x22 not found")

/-- Effect of a successful `patch_node(nm, body)` on the stored node list. -/
def patchApply (nodes : List NodeDescriptor) (nm : String) (body : KValue) :
    List NodeDescriptor :=
  nodes.map (fun nd => if nd.name = nm then applyBody body nd else nd)

/-- One Kubernetes API call, as recorded in an invocation's trace. -/
inductive ApiCall where
  | readNodeCall : String → ApiCall
  | listNodesCall : String → ApiCall
  | patchNodeCall : String → KValue → ApiCall
  | readPvcCall : String → String → ApiCall
  | patchPvcCall : String → String → String → ApiCall

/-- Does this API call mutate cluster state? -/
def isMutation : ApiCall → Bool
  | .patchNodeCall _ _ => true
  | .patchPvcCall _ _ _ => true
  | _ => false

/-- A `Finding(title, aggregation_key, finding_type, failure)` record;
`is_issue` is true for `FindingType.ISSUE`, false for `FindingType.REPORT`. -/
structure Finding where
  title : String
  aggregation_key : String
  is_issue : Bool
  failure : Bool
  deriving Repr, DecidableEq

/-- One item reported to the framework: `event.add_finding` or a markdown
block passed to `event.add_enrichment`. -/
inductive Emission where
  | finding : Finding → Emission
  | enrichment : String → Emission
  deriving Repr, DecidableEq

/-- How an invocation ends: normal return, a raised
`ActionException(ACTION_VALIDATION_ERROR, msg)` or
`ActionException(ACTION_UNEXPECTED_ERROR, msg)`, or an exception that the
action never catches and lets propagate. -/
inductive ActionErr where
  | validation : String → ActionErr
  | unexpected : String → ActionErr
  | uncaught : String → ActionErr
  deriving Repr, DecidableEq

/-- Result of running one action: termination mode, final cluster state,
ordered API-call trace, ordered finding/enrichment trace. -/
structure RunResult where
  result : Except ActionErr Unit
  state : Cluster
  calls : List ApiCall
  emits : List Emission

/-- The unconditional tail of `cordon_stateful_nodes.py` (lines 57-70): the
`"Cordoned Stateful Node"` finding followed by the `"Node {name} cordoned"`
enrichment, emitted whenever the function reaches its final section. -/
def finalReport (nm : String) : List Emission :=
  [ .finding { title := "Cordoned Stateful Node", aggregation_key := "CordonStatefulNodes",
               is_issue := false, failure := false },
    .enrichment ("Node " ++ nm ++ " cordoned") ]

/-- Embedding of `cordon_stateful_nodes` from
`src/my_playbook_repo/cordon_stateful_nodes.py` (single-node mode).
`node_name` is the resolved parameter value: `none` models an absent value,
and Python's `if not node_name` also catches the empty string. -/
def cordon_stateful_nodes_single (st : Cluster) (node_name : Option String) : RunResult :=
  match node_name with
  | none =>
      { result := .error (.validation "Node name is missing in the parameters."),
        state := st, calls := [], emits := [] }
  | some n =>
      if n = "" then
        { result := .error (.validation "Node name is missing in the parameters."),
          state := st, calls := [], emits := [] }
      else
        match readNode st n with
        | .error e =>
            { result := .error (.unexpected ("Failed to read node " ++ n ++ " " ++ e)),
              state := st, calls := [.readNodeCall n], emits := [] }
        | .ok node =>
            if isStateful node.labels then
              if node.unschedulable then
                { result := .ok (), state := st,
                  calls := [.readNodeCall n],
                  emits := .enrichment ("Node " ++ node.name ++ " already cordoned")
                             :: finalReport node.name }
              else
                match st.patchErr node.name with
                | none =>
                    { result := .ok (),
                      state := { st with nodes := patchApply st.nodes node.name cordonBody },
                      calls := [.readNodeCall n, .patchNodeCall node.name cordonBody],
                      emits := .enrichment ("Node " ++ node.name ++ " cordoned")
                                 :: finalReport node.name }
                | some e =>
                    { result := .error (.unexpected
                        ("Failed to cordon node " ++ node.name ++ " " ++ e)),
                      state := st,
                      calls := [.readNodeCall n, .patchNodeCall node.name cordonBody],
                      emits := [] }
            else
              { result := .ok (), state := st,
                calls := [.readNodeCall n], emits := finalReport node.name }

/-- The per-node failure finding of the selector-mode action
(`my_actions.py` lines 132-139). -/
def errFinding (nm : String) : Finding :=
  { title := "Error cordoning node " ++ nm, aggregation_key := "CordonStatefulNodesError",
    is_issue := true, failure := true }

/-- The `for node in nodes:` loop of the selector-mode action
(`my_actions.py` lines 117-146), threading the cluster state and
accumulating API calls, emissions, and the `cordoned_nodes` name list. -/
def cordonLoop (st : Cluster) :
    List NodeDescriptor → Cluster × List ApiCall × List Emission × List String
  | [] => (st, [], [], [])
  | node :: rest =>
      if isStateful node.labels then
        if node.unschedulable then cordonLoop st rest
        else
          match st.patchErr node.name with
          | none =>
              let st' : Cluster :=
                { st with nodes := patchApply st.nodes node.name cordonBody }
              let r := cordonLoop st' rest
              (r.1, .patchNodeCall node.name cordonBody :: r.2.1,
               .enrichment ("Node " ++ node.name ++ " cordoned") :: r.2.2.1,
               node.name :: r.2.2.2)
          | some e =>
              let r := cordonLoop st rest
              (r.1, .patchNodeCall node.name cordonBody :: r.2.1,
               .finding (errFinding node.name)
                 :: .enrichment ("Failed to cordon node " ++ node.name ++ " due to " ++ e)
                 :: r.2.2.1,
               r.2.2.2)
      else cordonLoop st rest

/-- Embedding of `cordon_stateful_nodes` from `src/my_playbook_repo/my_actions.py`
(selector mode).  `v1.list_node(label_selector=...)` is modelled as returning
the environment's node list (the server-side label filtering is outside the
repository); an `ApiException` on the list call is uncaught in the source and
propagates. -/
def cordon_stateful_nodes_selector (st : Cluster) (label_selector : String) : RunResult :=
  match st.listErr with
  | some e =>
      { result := .error (.uncaught e), state := st,
        calls := [.listNodesCall label_selector], emits := [] }
  | none =>
      let r := cordonLoop st st.nodes
      let summary : List Emission :=
        if r.2.2.2.isEmpty then
          [ .finding { title := "No Stateful Nodes Found",
                       aggregation_key := "CordonStatefulNodes",
                       is_issue := false, failure := false },
            .enrichment "No stateful nodes found to cordon." ]
        else
          [ .finding { title := "Cordoned Stateful Nodes",
                       aggregation_key := "CordonStatefulNodes",
                       is_issue := false, failure := false },
            .enrichment ("Cordoned nodes: " ++ String.intercalate ", " r.2.2.2) ]
      { result := .ok (), state := r.1,
        calls := .listNodesCall label_selector :: r.2.1,
        emits := r.2.2.1 ++ summary }

/-- The spec's per-node result vocabulary (`CordonOutcome`, spec section 3),
written from the spec's words for comparison with the embedded code. -/
inductive CordonOutcome where
  | ALREADY_CORDONED
  | CORDONED
  | SKIPPED_NOT_STATEFUL
  | FAILED : String → CordonOutcome
  deriving Repr, DecidableEq

/-- The spec's single decision pass for one node (spec section 4.1, step 2),
written from the spec's words: statefulness, then the idempotency check, then
the patch whose success or failure the environment determines. -/
def cordonDecision (patchErr : Option String) (node : NodeDescriptor) : CordonOutcome :=
  if isStateful node.labels then
    if node.unschedulable then .ALREADY_CORDONED
    else
      match patchErr with
      | none => .CORDONED
      | some e => .FAILED e
  else .SKIPPED_NOT_STATEFUL

/-- Per-node outcomes of one selector-mode invocation, in listing order. -/
def selectorOutcomes (st : Cluster) : List CordonOutcome :=
  st.nodes.map (fun nd => cordonDecision (st.patchErr nd.name) nd)

/-- Is `c` one of the characters Python's `strip('Gi')` removes? -/
def isGiChar (c : Char) : Bool :=
  c = 'G' || c = 'i'

/-- Python `s.strip('Gi')`: drop every leading and trailing `'G'`/`'i'`. -/
def stripGi (s : String) : String :=
  String.mk (((s.data.dropWhile isGiChar).reverse.dropWhile isGiChar).reverse)

/-- Accumulator pass of the decimal parser. -/
def parseDigits : List Char → Nat → Option Nat
  | [], acc => some acc
  | c :: cs, acc =>
      if c.isDigit then parseDigits cs (acc * 10 + (c.toNat - 48)) else none

/-- Python `int(s)` restricted to plain decimal digit strings, the only shape
a `"NGi"` storage quantity leaves after `strip('Gi')`.  On anything else
(including the empty string) `int` raises a `ValueError`, modelled as `none`. -/
def parseNat (s : String) : Option Nat :=
  match s.data with
  | [] => none
  | l => parseDigits l 0

/-- `int(current * 1.05)` from `resize_persistent_volume`.  For every
`n < 10^15` the IEEE-double expression `int(n * 1.05)` the source evaluates
equals `⌊21 n / 20⌋`: the double nearest to 1.05 exceeds it by about
4.4e-17, far too little to carry `n * 1.05` past the next integer in that
range, so natural-number division embeds the arithmetic exactly. -/
def newSizeGi (n : Nat) : Nat :=
  21 * n / 20

/-- Environment for one `resize_persistent_volume` run: what
`PersistentVolumeClaim().read(...)` yields (the claim's current
`spec.resources.requests['storage']` string on success) and whether
`pvc.patch()` raises. -/
structure PvcEnv where
  readResult : Except String String
  patchErr : Option String

/-- Result of one `resize_persistent_volume` run (the action never mutates
the node model, so no cluster state is threaded). -/
structure PvcRunResult where
  result : Except ActionErr Unit
  calls : List ApiCall
  emits : List Emission

/-- Embedding of `resize_persistent_volume` from
`src/my_playbook_repo/my_actions.py` (lines 30-94). -/
def resize_persistent_volume (env : PvcEnv) (name nspace : String) : PvcRunResult :=
  match env.readResult with
  | .error _ =>
      { result := .ok (),
        calls := [.readPvcCall name nspace],
        emits := [ .finding { title := "Error resizing PersistentVolumeClaim " ++ name,
                              aggregation_key := "PVCResizeError",
                              is_issue := true, failure := true },
                   .enrichment ("Resize failed because PersistentVolumeClaim " ++ name
                     ++ " in namespace " ++ nspace ++ " doesn't exist") ] }
  | .ok current =>
      match parseNat (stripGi current) with
      | none =>
          { result := .error (.uncaught
              ("invalid literal for int() with base 10: " ++ stripGi current)),
            calls := [.readPvcCall name nspace], emits := [] }
      | some n =>
          let newStr := toString (newSizeGi n) ++ "Gi"
          match env.patchErr with
          | none =>
              { result := .ok (),
                calls := [.readPvcCall name nspace, .patchPvcCall name nspace newStr],
                emits := [ .finding { title := "Resized PersistentVolumeClaim " ++ name,
                                      aggregation_key := "PVCResizeSuccess",
                                      is_issue := false, failure := false },
                           .enrichment ("Resized PVC " ++ name ++ " in namespace " ++ nspace
                             ++ " from " ++ current ++ " to " ++ newStr) ] }
          | some e =>
              { result := .ok (),
                calls := [.readPvcCall name nspace, .patchPvcCall name nspace newStr],
                emits := [ .finding { title := "Error resizing PersistentVolumeClaim " ++ name,
                                      aggregation_key := "PVCResizeError",
                                      is_issue := true, failure := true },
                           .enrichment ("Resize failed for PersistentVolumeClaim " ++ name
                             ++ " in namespace " ++ nspace ++ " due to " ++ e) ] }

/-- Fixture: a stateful node that is not yet cordoned. -/
def statefulNodeA : NodeDescriptor :=
  { name := "node-a", labels := [("node.paytm.com/group", "stateful-db")],
    unschedulable := false }

/-- Fixture: a stateful node that is already cordoned. -/
def cordonedNodeB : NodeDescriptor :=
  { name := "node-b", labels := [("node.paytm.com/group", "stateful-db")],
    unschedulable := true }

/-- Fixture: a node without any stateful label value. -/
def frontendNodeC : NodeDescriptor :=
  { name := "node-c", labels := [("tier", "frontend")], unschedulable := false }

/-- Fixture: a second stateful, not-yet-cordoned node. -/
def statefulNodeB : NodeDescriptor :=
  { name := "node-b", labels := [("node.paytm.com/group", "stateful-cache")],
    unschedulable := false }

/-- Fixture: a third stateful, not-yet-cordoned node. -/
def statefulNodeD : NodeDescriptor :=
  { name := "node-d", labels := [("node.paytm.com/group", "stateful-queue")],
    unschedulable := false }

/-- Fixture: a cluster holding `nodes` on which every API call succeeds. -/
def okCluster (nodes : List NodeDescriptor) : Cluster :=
  { nodes := nodes, readErr := fun _ => none, listErr := none, patchErr := fun _ => none }

/-- Fixture: a cluster whose `read_node` calls all raise. -/
def readFailCluster : Cluster :=
  { nodes := [statefulNodeA], readErr := fun _ => some "boom", listErr := none,
    patchErr := fun _ => none }

/-- Fixture: a cluster whose `patch_node` calls all raise. -/
def patchFailCluster : Cluster :=
  { nodes := [statefulNodeA], readErr := fun _ => none, listErr := none,
    patchErr := fun _ => some "denied" }

/-- Fixture for the three-node scenario: nodes `a`, `b`, `c` where only
`b`'s patch call raises with message `e`. -/
def threeNodeCluster (a b c : NodeDescriptor) (e : String) : Cluster :=
  { nodes := [a, b, c], readErr := fun _ => none, listErr := none,
    patchErr := fun nm => if nm = b.name then some e else none }

theorem leadsWith_iff : ∀ p l : List Char, leadsWith p l = true ↔ p <+: l
  | [], l => by simp [leadsWith, List.nil_prefix]
  | p :: ps, [] => by simp [leadsWith]
  | p :: ps, c :: cs => by
      simp [leadsWith, List.cons_prefix_cons, leadsWith_iff ps cs]

theorem occursIn_iff : ∀ (p l : List Char), occursIn p l = true ↔ p <:+: l
  | p, [] => by simp [occursIn, leadsWith_iff, List.prefix_nil, List.infix_nil]
  | p, c :: cs => by
      simp [occursIn, leadsWith_iff, occursIn_iff p cs, List.infix_cons_iff]

theorem strContains_iff (s pat : String) :
    strContains s pat = true ↔ pat.data <:+: s.data := by
  simp [strContains, occursIn_iff]

theorem isStateful_iff (labels : List (String × String)) :
    isStateful labels = true ↔ ∃ kv ∈ labels, "stateful".data <:+: kv.2.data := by
  simp [isStateful, List.any_eq_true, strContains_iff]

theorem applyBody_shape (b : KValue) (nd : NodeDescriptor) :
    (applyBody b nd).name = nd.name ∧ (applyBody b nd).labels = nd.labels := by
  unfold applyBody
  split <;> simp

theorem applyBody_cordon_of_unschedulable (nd : NodeDescriptor)
    (h : nd.unschedulable = true) : applyBody cordonBody nd = nd := by
  obtain ⟨nm, lb, u⟩ := nd
  simp only [NodeDescriptor.unschedulable] at h
  subst h
  rfl

theorem patchApply_names_labels (nodes : List NodeDescriptor) (nm : String) (b : KValue) :
    (patchApply nodes nm b).map (fun nd => (nd.name, nd.labels))
      = nodes.map (fun nd => (nd.name, nd.labels)) := by
  unfold patchApply
  rw [List.map_map]
  refine List.map_congr_left (fun nd _ => ?_)
  by_cases h : nd.name = nm <;>
    simp [Function.comp, h, (applyBody_shape b nd).1, (applyBody_shape b nd).2]

theorem patchApply_mem_cordoned (nodes : List NodeDescriptor) (nm : String)
    (nd : NodeDescriptor) (hmem : nd ∈ nodes) (hu : nd.unschedulable = true) :
    nd ∈ patchApply nodes nm cordonBody := by
  unfold patchApply
  refine List.mem_map.mpr ⟨nd, hmem, ?_⟩
  by_cases h : nd.name = nm <;> simp [h, applyBody_cordon_of_unschedulable nd hu]

theorem cordonLoop_env (ns : List NodeDescriptor) :
    ∀ st : Cluster,
      (cordonLoop st ns).1.readErr = st.readErr
      ∧ (cordonLoop st ns).1.listErr = st.listErr
      ∧ (cordonLoop st ns).1.patchErr = st.patchErr := by
  induction ns with
  | nil => intro st; exact ⟨rfl, rfl, rfl⟩
  | cons node rest ih =>
      intro st
      cases hs : isStateful node.labels
      · simpa [cordonLoop, hs] using ih st
      · cases hu : node.unschedulable
        · cases hp : st.patchErr node.name
          · simpa [cordonLoop, hs, hu, hp] using ih _
          · simpa [cordonLoop, hs, hu, hp] using ih st
        · simpa [cordonLoop, hs, hu] using ih st

theorem cordonLoop_calls_cordoned (ns : List NodeDescriptor) :
    ∀ st : Cluster,
      (cordonLoop st ns).2.1
        = (ns.filter (fun nd => isStateful nd.labels && !nd.unschedulable)).map
            (fun nd => ApiCall.patchNodeCall nd.name cordonBody)
      ∧ (cordonLoop st ns).2.2.2
        = (ns.filter (fun nd => isStateful nd.labels && !nd.unschedulable
            && (st.patchErr nd.name).isNone)).map (fun nd => nd.name) := by
  induction ns with
  | nil => intro st; exact ⟨rfl, rfl⟩
  | cons node rest ih =>
      intro st
      cases hs : isStateful node.labels
      · simpa [cordonLoop, hs, List.filter_cons] using ih st
      · cases hu : node.unschedulable
        · cases hp : st.patchErr node.name
          · simpa [cordonLoop, hs, hu, hp, List.filter_cons] using ih _
          · simpa [cordonLoop, hs, hu, hp, List.filter_cons] using ih st
        · simpa [cordonLoop, hs, hu, List.filter_cons] using ih st

theorem cordonLoop_state_nodes (ns : List NodeDescriptor) :
    ∀ st : Cluster,
      (cordonLoop st ns).1.nodes.map (fun nd => (nd.name, nd.labels))
        = st.nodes.map (fun nd => (nd.name, nd.labels)) := by
  induction ns with
  | nil => intro st; rfl
  | cons node rest ih =>
      intro st
      cases hs : isStateful node.labels
      · simpa [cordonLoop, hs] using ih st
      · cases hu : node.unschedulable
        · cases hp : st.patchErr node.name
          · simp only [cordonLoop, hs, hu, hp]
            simp only [Bool.false_eq_true, if_false, if_true]
            exact (ih _).trans (patchApply_names_labels st.nodes node.name cordonBody)
          · simpa [cordonLoop, hs, hu, hp] using ih st
        · simpa [cordonLoop, hs, hu] using ih st

theorem cordonLoop_mem_cordoned (ns : List NodeDescriptor) :
    ∀ (st : Cluster) (nd : NodeDescriptor), nd ∈ st.nodes → nd.unschedulable = true →
      nd ∈ (cordonLoop st ns).1.nodes := by
  induction ns with
  | nil => intro st nd h _; exact h
  | cons node rest ih =>
      intro st nd hmem hu
      cases hs : isStateful node.labels
      · simpa [cordonLoop, hs] using ih st nd hmem hu
      · cases hub : node.unschedulable
        · cases hp : st.patchErr node.name
          · simp only [cordonLoop, hs, hub, hp]
            simp only [Bool.false_eq_true, if_false, if_true]
            exact ih _ nd (patchApply_mem_cordoned st.nodes node.name nd hmem hu) hu
          · simpa [cordonLoop, hs, hub, hp] using ih st nd hmem hu
        · simpa [cordonLoop, hs, hub] using ih st nd hmem hu

theorem cordonLoop_patch_mem (st : Cluster) (ns : List NodeDescriptor) (nm : String)
    (b : KValue) :
    ApiCall.patchNodeCall nm b ∈ (cordonLoop st ns).2.1
      ↔ ∃ nd ∈ ns, nd.name = nm ∧ b = cordonBody
          ∧ isStateful nd.labels = true ∧ nd.unschedulable = false := by
  rw [(cordonLoop_calls_cordoned ns st).1]
  simp only [List.mem_map, List.mem_filter, Bool.and_eq_true, Bool.not_eq_true']
  constructor
  · rintro ⟨nd, ⟨hmem, hs, hu⟩, heq⟩
    injection heq with h1 h2
    exact ⟨nd, hmem, h1, h2.symm, hs, hu⟩
  · rintro ⟨nd, hmem, h1, rfl, hs, hu⟩
    exact ⟨nd, ⟨hmem, hs, hu⟩, by rw [h1]⟩

/-- C1: a node satisfies the statefulness predicate iff at least one value in
its labels mapping contains the substring "stateful" (case-sensitive, values
only, never keys); and in both the single-node and the selector-mode action a
cordon patch is attempted for a node exactly when this predicate holds and
the node is not yet unschedulable. -/
theorem stateful_predicate_decides_candidacy :
    (∀ labels : List (String × String),
        isStateful labels = true ↔ ∃ kv ∈ labels, "stateful".data <:+: kv.2.data)
    ∧ (∀ (st : Cluster) (n : String) (node : NodeDescriptor), n ≠ "" →
        readNode st n = .ok node →
        ((∃ b, ApiCall.patchNodeCall node.name b
            ∈ (cordon_stateful_nodes_single st (some n)).calls)
          ↔ (isStateful node.labels = true ∧ node.unschedulable = false)))
    ∧ (∀ (st : Cluster) (sel nm : String), st.listErr = none →
        ((∃ b, ApiCall.patchNodeCall nm b
            ∈ (cordon_stateful_nodes_selector st sel).calls)
          ↔ ∃ nd ∈ st.nodes, nd.name = nm ∧ isStateful nd.labels = true
              ∧ nd.unschedulable = false)) := by
  refine ⟨isStateful_iff, ?_, ?_⟩
  · intro st n node hn hread
    cases hs : isStateful node.labels
    · simp [cordon_stateful_nodes_single, hn, hread, hs]
    · cases hu : node.unschedulable
      · cases hp : st.patchErr node.name
        · simp [cordon_stateful_nodes_single, hn, hread, hs, hu, hp]
        · simp [cordon_stateful_nodes_single, hn, hread, hs, hu, hp]
      · simp [cordon_stateful_nodes_single, hn, hread, hs, hu]
  · intro st sel nm hl
    constructor
    · rintro ⟨b, hb⟩
      simp only [cordon_stateful_nodes_selector, hl] at hb
      rcases List.mem_cons.mp hb with h | h
      · exact ApiCall.noConfusion h
      · obtain ⟨nd, hmem, h1, _, hs2, hu2⟩ := (cordonLoop_patch_mem st st.nodes nm b).mp h
        exact ⟨nd, hmem, h1, hs2, hu2⟩
    · rintro ⟨nd, hmem, h1, hs2, hu2⟩
      refine ⟨cordonBody, ?_⟩
      simp only [cordon_stateful_nodes_selector, hl]
      exact List.mem_cons.mpr (Or.inr ((cordonLoop_patch_mem st st.nodes nm cordonBody).mpr
        ⟨nd, hmem, h1, rfl, hs2, hu2⟩))

/-- Witness for C1 at a concrete cluster: the stateful, not-yet-cordoned
fixture node is patched by the single-node action. -/
theorem stateful_predicate_decides_candidacy_w :
    ∃ b, ApiCall.patchNodeCall "node-a" b
        ∈ (cordon_stateful_nodes_single (okCluster [statefulNodeA]) (some "node-a")).calls :=
  (stateful_predicate_decides_candidacy.2.1 (okCluster [statefulNodeA]) "node-a"
      statefulNodeA (by decide) rfl).mpr ⟨rfl, rfl⟩

/-- C2: a stateful node whose `unschedulable` field is already true gets the
ALREADY_CORDONED outcome and no patch in either mode, and a second invocation
on the resulting state again issues zero patch calls for that node. -/
theorem already_cordoned_is_idempotent_noop
    (st : Cluster) (n sel : String) (node : NodeDescriptor)
    (hn : n ≠ "")
    (hread : readNode st n = .ok node)
    (hs : isStateful node.labels = true)
    (hu : node.unschedulable = true)
    (hmem : node ∈ st.nodes)
    (hnodup : (st.nodes.map NodeDescriptor.name).Nodup) :
    cordonDecision (st.patchErr node.name) node = .ALREADY_CORDONED
    ∧ (cordon_stateful_nodes_single st (some n)).calls = [.readNodeCall n]
    ∧ (cordon_stateful_nodes_single st (some n)).state = st
    ∧ (cordon_stateful_nodes_single
         (cordon_stateful_nodes_single st (some n)).state (some n)).calls
        = [.readNodeCall n]
    ∧ (∀ b, ApiCall.patchNodeCall node.name b
          ∉ (cordon_stateful_nodes_selector st sel).calls)
    ∧ (∀ b, ApiCall.patchNodeCall node.name b
          ∉ (cordon_stateful_nodes_selector
               (cordon_stateful_nodes_selector st sel).state sel).calls) := by
  have hsingle : (cordon_stateful_nodes_single st (some n)).calls = [.readNodeCall n]
      ∧ (cordon_stateful_nodes_single st (some n)).state = st := by
    constructor <;> simp [cordon_stateful_nodes_single, hn, hread, hs, hu]
  have hnomatch : ∀ (stx : Cluster), node ∈ stx.nodes →
      (stx.nodes.map NodeDescriptor.name).Nodup →
      ∀ b, ApiCall.patchNodeCall node.name b ∉ (cordonLoop stx stx.nodes).2.1 := by
    intro stx hmemx hnodupx b hb
    obtain ⟨nd, hndmem, hname, _, _, hndu⟩ :=
      (cordonLoop_patch_mem stx stx.nodes node.name b).mp hb
    have : nd = node := List.inj_on_of_nodup_map hnodupx hndmem hmemx hname
    rw [this, hu] at hndu
    exact Bool.noConfusion hndu
  cases hl : st.listErr with
  | some e =>
      refine ⟨by simp [cordonDecision, hs, hu], hsingle.1, hsingle.2,
        by rw [hsingle.2]; exact hsingle.1, ?_, ?_⟩
      · intro b hb
        simp only [cordon_stateful_nodes_selector, hl, List.mem_singleton] at hb
        exact ApiCall.noConfusion hb
      · intro b hb
        have hstate : (cordon_stateful_nodes_selector st sel).state = st := by
          simp [cordon_stateful_nodes_selector, hl]
        rw [hstate] at hb
        simp only [cordon_stateful_nodes_selector, hl, List.mem_singleton] at hb
        exact ApiCall.noConfusion hb
  | none =>
      have hst1 : (cordon_stateful_nodes_selector st sel).state = (cordonLoop st st.nodes).1 := by
        simp [cordon_stateful_nodes_selector, hl]
      have hmem1 : node ∈ (cordonLoop st st.nodes).1.nodes :=
        cordonLoop_mem_cordoned st.nodes st node hmem hu
      have hnames1 : (cordonLoop st st.nodes).1.nodes.map NodeDescriptor.name
          = st.nodes.map NodeDescriptor.name := by
        have h := congrArg (List.map Prod.fst) (cordonLoop_state_nodes st.nodes st)
        simpa [List.map_map, Function.comp] using h
      have hnodup1 : ((cordonLoop st st.nodes).1.nodes.map NodeDescriptor.name).Nodup := by
        rw [hnames1]; exact hnodup
      have hl1 : (cordonLoop st st.nodes).1.listErr = none := by
        rw [(cordonLoop_env st.nodes st).2.1, hl]
      refine ⟨by simp [cordonDecision, hs, hu], hsingle.1, hsingle.2,
        by rw [hsingle.2]; exact hsingle.1, ?_, ?_⟩
      · intro b hb
        simp only [cordon_stateful_nodes_selector, hl] at hb
        rcases List.mem_cons.mp hb with h | h
        · exact ApiCall.noConfusion h
        · exact hnomatch st hmem hnodup b h
      · intro b hb
        rw [hst1] at hb
        simp only [cordon_stateful_nodes_selector, hl1] at hb
        rcases List.mem_cons.mp hb with h | h
        · exact ApiCall.noConfusion h
        · exact hnomatch _ hmem1 hnodup1 b h

/-- Witness for C2 at a concrete one-node cluster whose single node is
stateful and already cordoned. -/
theorem already_cordoned_is_idempotent_noop_w :
    (cordon_stateful_nodes_single (okCluster [cordonedNodeB]) (some "node-b")).calls
      = [.readNodeCall "node-b"] :=
  (already_cordoned_is_idempotent_noop (okCluster [cordonedNodeB]) "node-b" "sel"
      cordonedNodeB (by decide) rfl rfl rfl (by simp [okCluster])
      (by simp [okCluster])).2.1

/-- C3: in selector mode a per-node patch failure is recorded in that node's
own outcome and processing continues; over three candidates where only the
second node's patch errors, the outcomes are [CORDONED, FAILED, CORDONED],
the third node is still patched, and the invocation still returns normally
(no invocation with a successful node listing ever escalates). -/
theorem partial_failure_recorded_and_processing_continues
    (a b c : NodeDescriptor) (e sel : String)
    (hab : a.name ≠ b.name) (hcb : c.name ≠ b.name)
    (ha1 : isStateful a.labels = true) (ha2 : a.unschedulable = false)
    (hb1 : isStateful b.labels = true) (hb2 : b.unschedulable = false)
    (hc1 : isStateful c.labels = true) (hc2 : c.unschedulable = false) :
    selectorOutcomes (threeNodeCluster a b c e)
      = [.CORDONED, .FAILED e, .CORDONED]
    ∧ (cordon_stateful_nodes_selector (threeNodeCluster a b c e) sel).result = .ok ()
    ∧ (cordon_stateful_nodes_selector (threeNodeCluster a b c e) sel).calls
        = [.listNodesCall sel, .patchNodeCall a.name cordonBody,
           .patchNodeCall b.name cordonBody, .patchNodeCall c.name cordonBody]
    ∧ Emission.finding (errFinding b.name)
        ∈ (cordon_stateful_nodes_selector (threeNodeCluster a b c e) sel).emits
    ∧ Emission.enrichment ("Failed to cordon node " ++ b.name ++ " due to " ++ e)
        ∈ (cordon_stateful_nodes_selector (threeNodeCluster a b c e) sel).emits
    ∧ (∀ st : Cluster, st.listErr = none →
        (cordon_stateful_nodes_selector st sel).result = .ok ()) := by
  refine ⟨?_, ?_, ?_, ?_, ?_, ?_⟩
  · simp [selectorOutcomes, threeNodeCluster, cordonDecision,
      ha1, ha2, hb1, hb2, hc1, hc2, hab, hcb]
  · simp [cordon_stateful_nodes_selector, threeNodeCluster]
  · simp [cordon_stateful_nodes_selector, cordonLoop, threeNodeCluster,
      ha1, ha2, hb1, hb2, hc1, hc2, hab, hcb]
  · simp [cordon_stateful_nodes_selector, cordonLoop, threeNodeCluster,
      ha1, ha2, hb1, hb2, hc1, hc2, hab, hcb]
  · simp [cordon_stateful_nodes_selector, cordonLoop, threeNodeCluster,
      ha1, ha2, hb1, hb2, hc1, hc2, hab, hcb]
  · intro st hl
    simp [cordon_stateful_nodes_selector, hl]

/-- Witness for C3 at three concrete stateful nodes where only the middle
node's patch raises. -/
theorem partial_failure_recorded_and_processing_continues_w :
    selectorOutcomes (threeNodeCluster statefulNodeA statefulNodeB statefulNodeD "boom")
      = [.CORDONED, .FAILED "boom", .CORDONED] :=
  (partial_failure_recorded_and_processing_continues statefulNodeA statefulNodeB
      statefulNodeD "boom" "node.paytm.com/group" (by decide) (by decide)
      rfl rfl rfl rfl rfl rfl).1

/-- Truncation erases the documented 5% increase for every whole-Gi size
below 20: `int(n * 1.05) = n` there. -/
theorem newSizeGi_id_below_twenty : ∀ n, n < 20 → newSizeGi n = n := by
  decide

/-- C4 (code-bug evidence): with current storage "10Gi" the action computes
int(10 * 1.05) = 10 and patches the claim back to "10Gi": the requested
storage is not increased at all, although the function is documented to
increase the size by 5%. -/
theorem resize_ten_gi_not_increased :
    (resize_persistent_volume { readResult := .ok "10Gi", patchErr := none }
        "pvc-1" "default").calls
      = [.readPvcCall "pvc-1" "default", .patchPvcCall "pvc-1" "default" "10Gi"]
    ∧ newSizeGi 10 = 10 :=
  ⟨rfl, rfl⟩

/-- C5: with `node_name` empty or absent the single-node action fails with
the validation error before contacting the cluster: no read, list, or patch
call is issued and the cluster state is untouched. -/
theorem missing_node_name_validation_no_api_calls
    (st : Cluster) (nn : Option String) (h : nn = none ∨ nn = some "") :
    (cordon_stateful_nodes_single st nn).result
      = .error (.validation "Node name is missing in the parameters.")
    ∧ (cordon_stateful_nodes_single st nn).calls = []
    ∧ (cordon_stateful_nodes_single st nn).state = st := by
  rcases h with rfl | rfl <;> exact ⟨rfl, rfl, rfl⟩

/-- Witness for C5 with the empty node name. -/
theorem missing_node_name_validation_no_api_calls_w :
    (cordon_stateful_nodes_single (okCluster []) (some "")).calls = [] :=
  (missing_node_name_validation_no_api_calls (okCluster []) (some "") (Or.inr rfl)).2.1

/-- C6: in either cordon action every mutating call in the trace is a node
patch whose body is exactly the literal {"spec": {"unschedulable": true}}; a
stateful, not-yet-cordoned node whose patch succeeds receives exactly one
such patch (outcome CORDONED); and no run changes any node's name or labels. -/
theorem only_mutation_is_unschedulable_patch :
    (∀ (st : Cluster) (nn : Option String) (c : ApiCall),
        c ∈ (cordon_stateful_nodes_single st nn).calls → isMutation c = true →
        ∃ nm, c = .patchNodeCall nm cordonBody)
    ∧ (∀ (st : Cluster) (sel : String) (c : ApiCall),
        c ∈ (cordon_stateful_nodes_selector st sel).calls → isMutation c = true →
        ∃ nm, c = .patchNodeCall nm cordonBody)
    ∧ (∀ (st : Cluster) (n : String) (node : NodeDescriptor), n ≠ "" →
        readNode st n = .ok node → isStateful node.labels = true →
        node.unschedulable = false → st.patchErr node.name = none →
        (cordon_stateful_nodes_single st (some n)).calls.filter isMutation
            = [.patchNodeCall node.name cordonBody]
          ∧ cordonDecision (st.patchErr node.name) node = .CORDONED)
    ∧ (∀ (st : Cluster) (nn : Option String),
        (cordon_stateful_nodes_single st nn).state.nodes.map (fun nd => (nd.name, nd.labels))
          = st.nodes.map (fun nd => (nd.name, nd.labels)))
    ∧ (∀ (st : Cluster) (sel : String),
        (cordon_stateful_nodes_selector st sel).state.nodes.map
            (fun nd => (nd.name, nd.labels))
          = st.nodes.map (fun nd => (nd.name, nd.labels))) := by
  refine ⟨?_, ?_, ?_, ?_, ?_⟩
  · intro st nn c hc hm
    match nn with
    | none => simp [cordon_stateful_nodes_single] at hc
    | some n =>
      by_cases hn : n = ""
      · simp [cordon_stateful_nodes_single, hn] at hc
      · cases hread : readNode st n with
        | error e =>
            simp [cordon_stateful_nodes_single, hn, hread] at hc
            subst hc; simp [isMutation] at hm
        | ok node =>
            cases hs : isStateful node.labels with
            | false =>
                simp [cordon_stateful_nodes_single, hn, hread, hs] at hc
                subst hc; simp [isMutation] at hm
            | true =>
                cases hu : node.unschedulable with
                | true =>
                    simp [cordon_stateful_nodes_single, hn, hread, hs, hu] at hc
                    subst hc; simp [isMutation] at hm
                | false =>
                    cases hp : st.patchErr node.name with
                    | none =>
                        simp [cordon_stateful_nodes_single, hn, hread, hs, hu, hp] at hc
                        rcases hc with rfl | rfl
                        · simp [isMutation] at hm
                        · exact ⟨node.name, rfl⟩
                    | some e =>
                        simp [cordon_stateful_nodes_single, hn, hread, hs, hu, hp] at hc
                        rcases hc with rfl | rfl
                        · simp [isMutation] at hm
                        · exact ⟨node.name, rfl⟩
  · intro st sel c hc hm
    cases hl : st.listErr with
    | some e =>
        simp [cordon_stateful_nodes_selector, hl] at hc
        subst hc; simp [isMutation] at hm
    | none =>
        simp only [cordon_stateful_nodes_selector, hl] at hc
        rcases List.mem_cons.mp hc with rfl | h
        · simp [isMutation] at hm
        · rw [(cordonLoop_calls_cordoned st.nodes st).1] at h
          obtain ⟨nd, _, rfl⟩ := List.mem_map.mp h
          exact ⟨nd.name, rfl⟩
  · intro st n node hn hread hs hu hp
    constructor
    · simp [cordon_stateful_nodes_single, hn, hread, hs, hu, hp,
        List.filter_cons, isMutation]
    · simp [cordonDecision, hs, hu, hp]
  · intro st nn
    match nn with
    | none => rfl
    | some n =>
      by_cases hn : n = ""
      · simp [cordon_stateful_nodes_single, hn]
      · cases hread : readNode st n with
        | error e => simp [cordon_stateful_nodes_single, hn, hread]
        | ok node =>
            cases hs : isStateful node.labels with
            | false => simp [cordon_stateful_nodes_single, hn, hread, hs]
            | true =>
                cases hu : node.unschedulable with
                | true => simp [cordon_stateful_nodes_single, hn, hread, hs, hu]
                | false =>
                    cases hp : st.patchErr node.name with
                    | none =>
                        simp only [cordon_stateful_nodes_single, hn, hread, hs, hu, hp]
                        simp only [if_neg hn, Bool.false_eq_true, if_false, if_true]
                        exact patchApply_names_labels st.nodes node.name cordonBody
                    | some e => simp [cordon_stateful_nodes_single, hn, hread, hs, hu, hp]
  · intro st sel
    cases hl : st.listErr with
    | some e => simp [cordon_stateful_nodes_selector, hl]
    | none =>
        simp only [cordon_stateful_nodes_selector, hl]
        exact cordonLoop_state_nodes st.nodes st

/-- Witness for C6: the concrete stateful, uncordoned fixture node receives
exactly one cordon patch. -/
theorem only_mutation_is_unschedulable_patch_w :
    (cordon_stateful_nodes_single (okCluster [statefulNodeA]) (some "node-a")).calls.filter
        isMutation = [.patchNodeCall "node-a" cordonBody] :=
  ((only_mutation_is_unschedulable_patch.2.2.1 (okCluster [statefulNodeA]) "node-a"
      statefulNodeA (by decide) rfl rfl rfl rfl).1)

/-- C7: in single-node mode a node-read failure or a cordon-patch failure is
raised to the caller as a fatal action error: the run ends with the raised
error right there, the failing call is issued exactly once (no retry), and
nothing is reported. -/
theorem single_mode_failures_are_fatal (st : Cluster) (n : String) (hn : n ≠ "") :
    (∀ e, readNode st n = .error e →
        (cordon_stateful_nodes_single st (some n)).result
          = .error (.unexpected ("Failed to read node " ++ n ++ " " ++ e))
        ∧ (cordon_stateful_nodes_single st (some n)).calls = [.readNodeCall n]
        ∧ (cordon_stateful_nodes_single st (some n)).emits = []
        ∧ (cordon_stateful_nodes_single st (some n)).state = st)
    ∧ (∀ node e, readNode st n = .ok node → isStateful node.labels = true →
        node.unschedulable = false → st.patchErr node.name = some e →
        (cordon_stateful_nodes_single st (some n)).result
          = .error (.unexpected ("Failed to cordon node " ++ node.name ++ " " ++ e))
        ∧ (cordon_stateful_nodes_single st (some n)).calls
            = [.readNodeCall n, .patchNodeCall node.name cordonBody]
        ∧ (cordon_stateful_nodes_single st (some n)).emits = []
        ∧ (cordon_stateful_nodes_single st (some n)).state = st) := by
  constructor
  · intro e hread
    refine ⟨?_, ?_, ?_, ?_⟩ <;> simp [cordon_stateful_nodes_single, hn, hread]
  · intro node e hread hs hu hp
    refine ⟨?_, ?_, ?_, ?_⟩ <;>
      simp [cordon_stateful_nodes_single, hn, hread, hs, hu, hp]

/-- Witness for C7 on a cluster whose read call raises. -/
theorem single_mode_failures_are_fatal_w :
    (cordon_stateful_nodes_single readFailCluster (some "node-a")).calls
      = [.readNodeCall "node-a"] :=
  ((single_mode_failures_are_fatal readFailCluster "node-a" (by decide)).1 "boom" rfl).2.1

/-- C8: in selector mode an empty node listing is not an error: the run
returns normally, issues only the list call, and reports the non-failure
"no stateful nodes found" finding and enrichment. -/
theorem empty_candidate_set_not_error (st : Cluster) (sel : String)
    (hl : st.listErr = none) (hn : st.nodes = []) :
    (cordon_stateful_nodes_selector st sel).result = .ok ()
    ∧ (cordon_stateful_nodes_selector st sel).calls = [.listNodesCall sel]
    ∧ (cordon_stateful_nodes_selector st sel).emits
        = [ .finding { title := "No Stateful Nodes Found",
                       aggregation_key := "CordonStatefulNodes",
                       is_issue := false, failure := false },
            .enrichment "No stateful nodes found to cordon." ]
    ∧ (∀ f, Emission.finding f ∈ (cordon_stateful_nodes_selector st sel).emits →
        f.failure = false) := by
  refine ⟨?_, ?_, ?_, ?_⟩
  · simp [cordon_stateful_nodes_selector, hl]
  · simp [cordon_stateful_nodes_selector, hl, hn, cordonLoop]
  · simp [cordon_stateful_nodes_selector, hl, hn, cordonLoop]
  · intro f hf
    simp [cordon_stateful_nodes_selector, hl, hn, cordonLoop] at hf
    subst hf
    rfl

/-- Witness for C8 on a concrete empty cluster. -/
theorem empty_candidate_set_not_error_w :
    (cordon_stateful_nodes_selector (okCluster []) "node.paytm.com/group").result
      = .ok () :=
  (empty_candidate_set_not_error (okCluster []) "node.paytm.com/group" rfl rfl).1

/-- C9: in single-node mode, whenever the node is fetched and the run
terminates normally (the node was cordoned, was already cordoned, or was
skipped as not stateful), the action emits the finding titled "Cordoned
Stateful Node" with failure=false and its last enrichment says
"Node {name} cordoned", regardless of which of the three cases occurred. -/
theorem fetched_node_always_reported_cordoned
    (st : Cluster) (n : String) (node : NodeDescriptor) (hn : n ≠ "")
    (hread : readNode st n = .ok node)
    (hok : isStateful node.labels = false ∨ node.unschedulable = true
        ∨ st.patchErr node.name = none) :
    Emission.finding
        { title := "Cordoned Stateful Node", aggregation_key := "CordonStatefulNodes",
          is_issue := false, failure := false }
      ∈ (cordon_stateful_nodes_single st (some n)).emits
    ∧ (cordon_stateful_nodes_single st (some n)).emits.getLast?
        = some (.enrichment ("Node " ++ node.name ++ " cordoned"))
    ∧ (cordon_stateful_nodes_single st (some n)).result = .ok () := by
  cases hs : isStateful node.labels with
  | false =>
      have he : (cordon_stateful_nodes_single st (some n)).emits
          = finalReport node.name := by
        simp [cordon_stateful_nodes_single, hn, hread, hs]
      refine ⟨by rw [he]; simp [finalReport], by rw [he]; rfl, ?_⟩
      simp [cordon_stateful_nodes_single, hn, hread, hs]
  | true =>
      cases hu : node.unschedulable with
      | true =>
          have he : (cordon_stateful_nodes_single st (some n)).emits
              = .enrichment ("Node " ++ node.name ++ " already cordoned")
                  :: finalReport node.name := by
            simp [cordon_stateful_nodes_single, hn, hread, hs, hu]
          refine ⟨by rw [he]; simp [finalReport], by rw [he]; rfl, ?_⟩
          simp [cordon_stateful_nodes_single, hn, hread, hs, hu]
      | false =>
          have hp : st.patchErr node.name = none := by
            rcases hok with h | h | h
            · exact Bool.noConfusion (hs.symm.trans h)
            · exact Bool.noConfusion (hu.symm.trans h)
            · exact h
          have he : (cordon_stateful_nodes_single st (some n)).emits
              = .enrichment ("Node " ++ node.name ++ " cordoned")
                  :: finalReport node.name := by
            simp [cordon_stateful_nodes_single, hn, hread, hs, hu, hp]
          refine ⟨by rw [he]; simp [finalReport], by rw [he]; rfl, ?_⟩
          simp [cordon_stateful_nodes_single, hn, hread, hs, hu, hp]

/-- Witness for C9 on a fetched node that is skipped as not stateful: the
"Cordoned Stateful Node" finding is emitted anyway. -/
theorem fetched_node_always_reported_cordoned_w :
    Emission.finding
        { title := "Cordoned Stateful Node", aggregation_key := "CordonStatefulNodes",
          is_issue := false, failure := false }
      ∈ (cordon_stateful_nodes_single (okCluster [frontendNodeC]) (some "node-c")).emits :=
  (fetched_node_always_reported_cordoned (okCluster [frontendNodeC]) "node-c"
      frontendNodeC (by decide) rfl (Or.inl rfl)).1

/-- C10: if reading the PersistentVolumeClaim fails, the action emits the
failure finding with aggregation key "PVCResizeError" and failure=true,
returns normally, and issues no patch: the only API call is the read. -/
theorem pvc_read_failure_no_patch (env : PvcEnv) (name nspace e : String)
    (h : env.readResult = .error e) :
    (resize_persistent_volume env name nspace).emits
      = [ .finding { title := "Error resizing PersistentVolumeClaim " ++ name,
                     aggregation_key := "PVCResizeError", is_issue := true,
                     failure := true },
          .enrichment ("Resize failed because PersistentVolumeClaim " ++ name
            ++ " in namespace " ++ nspace ++ " doesn't exist") ]
    ∧ (resize_persistent_volume env name nspace).calls = [.readPvcCall name nspace]
    ∧ (∀ c ∈ (resize_persistent_volume env name nspace).calls, isMutation c = false)
    ∧ (resize_persistent_volume env name nspace).result = .ok () := by
  refine ⟨?_, ?_, ?_, ?_⟩
  · simp [resize_persistent_volume, h]
  · simp [resize_persistent_volume, h]
  · intro c hc
    simp [resize_persistent_volume, h] at hc
    subst hc
    rfl
  · simp [resize_persistent_volume, h]

/-- Witness for C10 on a PVC whose read raises. -/
theorem pvc_read_failure_no_patch_w :
    (resize_persistent_volume { readResult := .error "missing", patchErr := none }
        "db-pvc" "default").calls = [.readPvcCall "db-pvc" "default"] :=
  (pvc_read_failure_no_patch { readResult := .error "missing", patchErr := none }
      "db-pvc" "default" "missing" rfl).2.1
